import Mathlib

/-!
Verification of the GRaND include/exclude screening scripts
(`find_links.py` and `find_age.py`).

Document text and other Python strings are embedded as `List Char`;
Python floats arising from parsed 1-2 digit decimals are embedded as `ℚ`
(exact for every value these scripts parse and compare); Python `None`
is `Option.none`; code that swallows exceptions is embedded by matching
on an explicit outcome type whose failure constructors are mapped to the
sentinel the `except` branch returns.

The regular-expression pattern battery is embedded as hand-rolled
scanners implementing Python `re` semantics (leftmost match, greedy
quantifier with backtracking, `finditer` resuming at each match end).
At every spot where the concrete pattern makes greedy matching
backtrack-free, the scanner takes the greedy branch directly; the one
place backtracking is observable — a 1-2 digit capture followed by a
required continuation — is implemented with an explicit two-candidate
trial (`twoThenOne`).
-/

/-! ### Generic Python string helpers -/

/-- Python `str.lower` on one character (ASCII model). -/
def lc (c : Char) : Char := c.toLower

/-- Python `str.lower` on a string. -/
def lcL (s : List Char) : List Char := s.map lc

/-- Python `str.strip()`: drop leading and trailing whitespace. -/
def pyStrip (s : List Char) : List Char :=
  ((s.dropWhile Char.isWhitespace).reverse.dropWhile Char.isWhitespace).reverse

/-- Embeds `re.sub(r"\s+", " ", s)`: collapse each whitespace run to one space.
The boolean records whether the previous character was whitespace. -/
def collapseWsAux : Bool → List Char → List Char
  | _, [] => []
  | prevWs, c :: r =>
    if c.isWhitespace then
      if prevWs then collapseWsAux true r else ' ' :: collapseWsAux true r
    else c :: collapseWsAux false r

def collapseWs (s : List Char) : List Char := collapseWsAux false s

/-- Embeds `_clean` from find_age.py: collapse whitespace runs, then strip. -/
def clean (s : List Char) : List Char := pyStrip (collapseWs s)

/-- Python substring containment `needle in hay`. -/
def listContainsSub (needle : List Char) : List Char → Bool
  | [] => needle.isEmpty
  | c :: t => needle.isPrefixOf (c :: t) || listContainsSub needle t

/-- Number of positions of `hay` at which `pat` occurs (for stating the
"contains the phrase exactly twice" hypotheses). -/
def countOcc (pat : List Char) : List Char → Nat
  | [] => if pat = [] then 1 else 0
  | c :: t => (if pat.isPrefixOf (c :: t) then 1 else 0) + countOcc pat t

/-- Python `s.split(sep)[0]` for a nonempty separator: the characters
before the first occurrence of `sep`. -/
def takeUntilSub (sep : List Char) : List Char → List Char
  | [] => []
  | c :: t => if sep.isPrefixOf (c :: t) then [] else c :: takeUntilSub sep t

/-- Case-insensitive literal match (the `re.I` flag): if `pat` matches
the beginning of `s` up to case, return the rest of `s`. -/
def ciStarts (pat : List Char) (s : List Char) : Option (List Char) :=
  match pat, s with
  | [], rest => some rest
  | _ :: _, [] => none
  | p :: ps, c :: cs => if lc c = lc p then ciStarts ps cs else none

/-- Embeds `\s*` (greedy; used only where a shorter whitespace run can never
make the continuation succeed, so no backtracking is needed). -/
def wsStar (s : List Char) : List Char := s.dropWhile Char.isWhitespace

/-- Embeds `\s+` followed by maximal whitespace consumption (same remark). -/
def wsPlus (s : List Char) : Option (List Char) :=
  match s with
  | c :: r => if c.isWhitespace then some (wsStar r) else none
  | [] => none

/-- Embeds `(\d{1,2})` followed by a required continuation `k`: Python tries the
greedy two-digit capture first and backtracks to one digit if the
continuation fails. Returns the captured digits and `k`'s result. -/
def twoThenOne (s : List Char) (k : List Char → Option α) : Option (List Char × α) :=
  match s with
  | [] => none
  | [a] =>
    if a.isDigit then (k []).map (fun r => ([a], r)) else none
  | a :: b :: rest =>
    if a.isDigit then
      if b.isDigit then
        match k rest with
        | some r => some ([a, b], r)
        | none =>
          match k (b :: rest) with
          | some r => some ([a], r)
          | none => none
      else
        match k (b :: rest) with
        | some r => some ([a], r)
        | none => none
    else none

/-- Digit list to number, most significant first. -/
def digitsToNat (ds : List Char) : Nat :=
  ds.foldl (fun n c => 10 * n + (c.toNat - ('0').toNat)) 0

/-- Python `float(...)` of a `\d{1,2}(?:\.\d+)?` capture, embedded
exactly as a rational: digits before the dot are the integer part,
digits after it the numerator over the matching power of ten. -/
def parseNum (cs : List Char) : ℚ :=
  let ip := cs.takeWhile (fun c => c ≠ '.')
  let rest := cs.dropWhile (fun c => c ≠ '.')
  match rest with
  | '.' :: fp =>
    mkRat ((digitsToNat ip * 10 ^ fp.length + digitsToNat fp : ℕ) : ℤ) (10 ^ fp.length)
  | _ => (digitsToNat ip : ℚ)

/-! ### find_links.py: identifier normalizer -/

/-- Embeds `is_missing`: blank, "nan" or "none" cells count as absent. -/
def is_missing (s : List Char) : Bool :=
  let t := pyStrip s
  t.isEmpty || decide (lcL t = ("nan").toList) || decide (lcL t = ("none").toList)

/-- A character allowed in the identifier suffix: `[^\s\"<>]`. -/
def isDoiSuffixChar (c : Char) : Bool :=
  !c.isWhitespace && !(c = '"') && !(c = '<') && !(c = '>')

/-- One backtracking trial of `10\.\d{4,9}/[^\s\"<>]+` at a fixed
registrant-code length `n` (Python tries n = 9 down to 4). -/
def doiTryLen (rest : List Char) (n : Nat) : Option (List Char) :=
  let code := rest.take n
  if code.length = n && code.all Char.isDigit && ((rest.drop n).head? = some '/') then
    let run := ((rest.drop n).tail).takeWhile isDoiSuffixChar
    if run.isEmpty then none
    else some ('1' :: '0' :: '.' :: (code ++ '/' :: run))
  else none

/-- Match of the identifier pattern anchored at the current position. -/
def doiMatchAt : List Char → Option (List Char)
  | '1' :: '0' :: '.' :: rest => [9, 8, 7, 6, 5, 4].findSome? (doiTryLen rest)
  | _ => none

/-- Embeds `re.search` of the identifier pattern: leftmost match wins. -/
def doiSearch : List Char → Option (List Char)
  | [] => none
  | c :: rest =>
    match doiMatchAt (c :: rest) with
    | some m => some m
    | none => doiSearch rest

/-- Embeds `re.sub(r"^(https?://(dx\.)?doi\.org/)", "", s, flags=re.I)`: the
anchored pattern expands to exactly these four resolver heads
(`https?` and `(dx\.)?` each optional); at most one can match. -/
def stripDoiUrlHead (s : List Char) : List Char :=
  match ciStarts (("https://doi.org/").toList) s with
  | some r => r
  | none =>
    match ciStarts (("https://dx.doi.org/").toList) s with
    | some r => r
    | none =>
      match ciStarts (("http://doi.org/").toList) s with
      | some r => r
      | none =>
        match ciStarts (("http://dx.doi.org/").toList) s with
        | some r => r
        | none => s

/-- Embeds `re.sub(r"^(doi:)\s*", "", s, flags=re.I)`. -/
def stripDoiColonHead (s : List Char) : List Char :=
  match ciStarts (("doi:").toList) s with
  | some r => r.dropWhile Char.isWhitespace
  | none => s

/-- Embeds `normalize_doi` from find_links.py. -/
def normalize_doi (s : List Char) : Option (List Char) :=
  if is_missing s then none
  else doiSearch (stripDoiColonHead (stripDoiUrlHead (pyStrip s)))

/-- Embeds `doi_to_url`: `f"https://doi.org/{doi}" if doi else None`
(Python truthiness: `None` and the empty string are falsy). -/
def doi_to_url (doi : Option (List Char)) : Option (List Char) :=
  match doi with
  | some d => if d = [] then none else some ((("https://doi.org/").toList) ++ d)
  | none => none

/-- Embeds `first_author_from`. -/
def first_author_from (authors : List Char) : Option (List Char) :=
  if is_missing authors then none
  else
    let s := takeUntilSub ([';']) authors
    let s := takeUntilSub ((" and ").toList) s
    let s := takeUntilSub ([',']) s
    let s := pyStrip s
    if s = [] then none else some s

/-- Embeds `normalize_title`. -/
def normalize_title (title : List Char) : List Char :=
  collapseWs (pyStrip title)

/-- Embeds `short_title`. -/
def short_title (title : List Char) : List Char :=
  pyStrip (takeUntilSub ([':']) (takeUntilSub ((" - ").toList) (normalize_title title)))

/-! ### find_links.py: resolution chain

Network calls are embedded by an explicit outcome per call site: `exn`
is a transport exception raised by `requests.get`, `resp status parsed`
is a completed response, where `parsed = none` means `r.json()` (or the
field extraction around it) raised. The chain also returns the list of
search-service calls it issued, so that short-circuiting is provable. -/

/-- One Crossref work item as the code reads it (`it.get("DOI")`,
`it.get("URL")`). -/
structure CrossrefItem where
  doi : Option (List Char)
  url : Option (List Char)
deriving DecidableEq

/-- Outcome of one `requests.get` against the Crossref endpoint. -/
inductive CrossrefHttp where
  | exn : CrossrefHttp
  | resp (status : Nat) (parsed : Option (List CrossrefItem)) : CrossrefHttp
deriving DecidableEq

/-- One Google-Scholar organic result (`res.get("link")`). -/
structure SerpResult where
  link : Option (List Char)
deriving DecidableEq

/-- Outcome of one `requests.get` against the SerpAPI endpoint. -/
inductive SerpHttp where
  | exn : SerpHttp
  | resp (status : Nat) (parsed : Option (List SerpResult)) : SerpHttp
deriving DecidableEq

/-- A search-service call issued by the chain (for the short-circuit
and fallback-order properties). -/
inductive ServiceCall where
  | crossref (queryTitle : List Char) (author : Option (List Char))
  | scholar (q : List Char)
deriving DecidableEq

/-- Embeds `polite_get` at the Crossref call sites: exceptions are caught and
non-200 statuses dropped, both yielding `None`. -/
def polite_get_crossref : CrossrefHttp → Option (Option (List CrossrefItem))
  | CrossrefHttp.exn => none
  | CrossrefHttp.resp status parsed => if status = 200 then some parsed else none

/-- Embeds `crossref_top_item`: `None` on failed request, on a body whose JSON
extraction raises, and on an empty item list; else the first item. -/
def crossref_top_item (h : CrossrefHttp) : Option CrossrefItem :=
  match polite_get_crossref h with
  | none => none
  | some none => none
  | some (some items) => items.head?

/-- Python truthiness of an optional string (`None` and "" falsy). -/
def truthyStr : Option (List Char) → Option (List Char)
  | some [] => none
  | x => x

/-- The NOT_FOUND sentinel. -/
def notFound : List Char := ("NOT_FOUND").toList

/-- Embeds `x or y` where `x` is a Python string and `y` a string. -/
def pyOrStr (x y : List Char) : List Char := if x = [] then y else x

/-- Embeds `x or ""` where `x` is a Python string-or-None value. -/
def orEmpty : Option (List Char) → List Char
  | some s => s
  | none => []

/-- Embeds `robust_crossref_find_doi`: strategy 1 queries with the full
normalized title, strategy 2 with the short title when it differs
(case-insensitively). Returns ((found_doi, found_url), calls issued). -/
def robust_crossref_find_doi (titleRaw : List Char) (firstAuthor : Option (List Char))
    (h1 h2 : CrossrefHttp) : (List Char × List Char) × List ServiceCall :=
  let title := normalize_title titleRaw
  let short := short_title title
  let call1 := ServiceCall.crossref title firstAuthor
  let hit := fun (it : CrossrefItem) =>
    let doi := match truthyStr it.doi with
      | some dv => normalize_doi dv
      | none => none
    let url := match truthyStr it.url with
      | some uv => some uv
      | none => doi_to_url doi
    (pyOrStr (orEmpty doi) notFound, orEmpty url)
  match crossref_top_item h1 with
  | some it =>
    if truthyStr it.doi ≠ none then (hit it, [call1])
    else
      if short ≠ [] ∧ lcL short ≠ lcL title then
        let call2 := ServiceCall.crossref short firstAuthor
        match crossref_top_item h2 with
        | some it2 =>
          if truthyStr it2.doi ≠ none then (hit it2, [call1, call2])
          else ((notFound, []), [call1, call2])
        | none => ((notFound, []), [call1, call2])
      else ((notFound, []), [call1])
  | none =>
    if short ≠ [] ∧ lcL short ≠ lcL title then
      let call2 := ServiceCall.crossref short firstAuthor
      match crossref_top_item h2 with
      | some it2 =>
        if truthyStr it2.doi ≠ none then (hit it2, [call1, call2])
        else ((notFound, []), [call1, call2])
      | none => ((notFound, []), [call1, call2])
    else ((notFound, []), [call1])

/-- The result-scanning loop of `serpapi_scholar_link`: first link that
embeds an identifier pattern wins. -/
def serpFindDoiLink : List SerpResult → Option (Option (List Char) × List Char)
  | [] => none
  | r :: rest =>
    let link := orEmpty r.link
    if link = [] then serpFindDoiLink rest
    else
      match doiSearch link with
      | some g => some (normalize_doi g, link)
      | none => serpFindDoiLink rest

/-- Embeds `serpapi_scholar_link`: all failures (exception, non-200, JSON
error) collapse to ("NOT_FOUND", ""); with results but no embedded
identifier, the first result's link is returned alongside NOT_FOUND. -/
def serpapi_scholar_link (title : List Char) (author : Option (List Char))
    (h : SerpHttp) : (List Char × List Char) × List ServiceCall :=
  let q := match author with
    | some a => title ++ ' ' :: a
    | none => title
  let calls := [ServiceCall.scholar q]
  match h with
  | SerpHttp.exn => ((notFound, []), calls)
  | SerpHttp.resp status parsed =>
    if status = 200 then
      match parsed with
      | none => ((notFound, []), calls)
      | some results =>
        match serpFindDoiLink results with
        | some (doi, link) => ((pyOrStr (orEmpty doi) notFound, link), calls)
        | none =>
          match results with
          | [] => ((notFound, []), calls)
          | r0 :: _ => ((notFound, orEmpty r0.link), calls)
    else ((notFound, []), calls)

/-- One input row of find_links.py `main`, after the `str(...)`
conversions at the pandas boundary. -/
structure RowIn where
  covidence : List Char
  title : List Char
  authors : List Char
  doi : List Char
  url : List Char

/-- One output row of find_links.py `main`. -/
structure RowOut where
  covidence : List Char
  title : List Char
  authors : List Char
  csv_doi : List Char
  found_doi : List Char
  found_url : List Char
  source : List Char
deriving DecidableEq

/-- The per-row environment: responses the two Crossref strategies and
the Scholar fallback would receive, and whether a SerpAPI key was
supplied. -/
structure LinkEnv where
  h1 : CrossrefHttp
  h2 : CrossrefHttp
  serp : SerpHttp
  serpKey : Bool

/-- Python truthiness of an `Option (List Char)`. -/
def pyTruthy : Option (List Char) → Bool
  | some d => !(d = [])
  | none => false

/-- The per-row body of find_links.py `main` (lines 178-207): existing
identifier first, then Crossref, then the optional Scholar fallback.
Also returns the list of search-service calls issued. -/
def processRow (row : RowIn) (env : LinkEnv) : RowOut × List ServiceCall :=
  let covId :=
    let c := pyStrip row.covidence
    if c = [] then [] else c.filter (fun ch => !(ch = '#'))
  let title := pyStrip row.title
  let authors := pyStrip row.authors
  let doiCsv := normalize_doi row.doi
  let firstAuthor := first_author_from authors
  let urlTrim := pyStrip row.url
  let fd0 := orEmpty doiCsv
  let fu0 :=
    if urlTrim ≠ [] then urlTrim
    else if pyTruthy doiCsv then orEmpty (doi_to_url doiCsv) else []
  let step :=
    if pyTruthy doiCsv then ((fd0, fu0, ("csv").toList), ([] : List ServiceCall))
    else
      let r1 := robust_crossref_find_doi title firstAuthor env.h1 env.h2
      let fd := r1.1.1
      let fu := r1.1.2
      if fd = notFound ∧ env.serpKey then
        let r2 := serpapi_scholar_link title firstAuthor env.serp
        let sd := r2.1.1
        let su := r2.1.2
        if sd ≠ notFound then
          ((sd, pyOrStr su (orEmpty (doi_to_url (some sd))), ("scholar").toList),
            r1.2 ++ r2.2)
        else ((fd, fu, ("crossref").toList), r1.2 ++ r2.2)
      else ((fd, fu, ("crossref").toList), r1.2)
  ({ covidence := covId
     title := title
     authors := authors
     csv_doi := fd0
     found_doi := pyOrStr step.1.1 notFound
     found_url := step.1.2.1
     source := step.1.2.2 }, step.2)

/-! ### Column loading (find_links.py main, lines 162-170) -/

/-- The column-preparation stage of find_links.py: strip names, then
default every absent column ("Covidence #" by exact name, the rest
case-insensitively) to an empty column. Total — no abort path. -/
def find_links_prepare (cols : List (List Char)) : List (List Char) :=
  let cols1 := cols.map pyStrip
  let cols2 :=
    if cols1.contains (("Covidence #").toList) then cols1
    else cols1 ++ [("Covidence #").toList]
  [("title").toList, ("authors").toList, ("doi").toList, ("url").toList].foldl
    (fun acc col =>
      if (acc.map lcL).contains (lcL col) then acc else acc ++ [col]) cols2

/-- find_links.py `main` from reading the CSV up to the row loop,
as a fallible stage: the code between lines 162 and 170 contains no
`raise`, so the embedding always returns `ok`. -/
def find_links_load (cols : List (List Char)) : Except String (List (List Char)) :=
  Except.ok (find_links_prepare cols)

/-! ### Column loading (find_age.py main, lines 258-266) -/

/-- The dict comprehension `{c.lower().strip(): c for c in df.columns}`
followed by `.get key`: later duplicates overwrite earlier ones, so the
last matching column name wins. -/
def colmap_lookup (cols : List (List Char)) (key : List Char) : Option (List Char) :=
  cols.reverse.find? (fun c => decide (lcL (pyStrip c) = key))

/-- The schema checks of find_age.py `main`: both lookups must produce a
truthy column name before any row is processed, else `ValueError`. -/
def find_age_load_cols (cols : List (List Char)) (urlCol : List Char) :
    Except String ((List Char) × (List Char)) :=
  match truthyStr (colmap_lookup cols (lcL urlCol)) with
  | none => Except.error ("URL column not found")
  | some u =>
    match truthyStr (colmap_lookup cols (("covidence #").toList)) with
    | none => Except.error ("Input must include a Covidence # column")
    | some cv => Except.ok (u, cv)

/-! ### find_age.py: evidence miner -/

/-- The five evidence kinds (Python uses the literal strings "mean",
"median", "range", "single", "grade"). -/
inductive Kind where
  | mean | median | range | single | grade
deriving DecidableEq

/-- Embeds `AgeEvidence` from find_age.py. -/
structure AgeEvidence where
  kind : Kind
  value : Option ℚ
  low : Option ℚ
  high : Option ℚ
  context : List Char
deriving DecidableEq

/-- Embeds `grade_to_age_bounds` (over ℤ: Python ints may go through g = 0). -/
def grade_to_age_bounds (g : ℤ) : ℤ × ℤ :=
  let low := 6 + (g - 1)
  (low, low + 1)

/-- Embeds `(?:\s+at\s+baseline)?` — optional; if the group fails, the
continuation (which must next reach a digit) cannot start at the same
whitespace-then-"at" text either, so taking the greedy branch when it
matches is exact. -/
def atBaselineOpt (s : List Char) : List Char :=
  match wsPlus s with
  | none => s
  | some r1 =>
    match ciStarts (("at").toList) r1 with
    | none => s
    | some r2 =>
      match wsPlus r2 with
      | none => s
      | some r3 =>
        match ciStarts (("baseline").toList) r3 with
        | none => s
        | some r4 => r4

/-- Embeds `(?:of|was|=|:)?` — the four alternatives have pairwise distinct
first characters, and none starts with a digit, so greedy choice is
exact. -/
def connectorOpt (s : List Char) : List Char :=
  match ciStarts (("of").toList) s with
  | some r => r
  | none =>
    match ciStarts (("was").toList) s with
    | some r => r
    | none =>
      match s with
      | '=' :: r => r
      | ':' :: r => r
      | _ => s

/-- Embeds `(\d{1,2}(?:\.\d+)?)` — everything after this capture in the
mean/median patterns is optional, so the greedy capture is exact. -/
def matchNum (s : List Char) : Option (List Char × List Char) :=
  match s with
  | [] => none
  | c :: rest =>
    if c.isDigit then
      let intp : List Char × List Char :=
        match rest with
        | d :: rest2 => if d.isDigit then ([c, d], rest2) else ([c], rest)
        | [] => ([c], [])
      match intp.2 with
      | '.' :: r =>
        let ds := r.takeWhile Char.isDigit
        if ds = [] then some (intp.1, intp.2)
        else some (intp.1 ++ '.' :: ds, r.drop ds.length)
      | _ => some (intp.1, intp.2)
    else none

/-- Embeds `\s*(?:years?|y\.o\.)?` — the trailing whitespace stays consumed
even when the optional unit fails (greedy `\s*` with an optional rest). -/
def unitOptTail (s : List Char) : List Char :=
  let r := wsStar s
  match ciStarts (("year").toList) r with
  | some r1 =>
    (match r1 with
     | c :: r2 => if lc c = 's' then r2 else r1
     | [] => r1)
  | none =>
    match ciStarts (("y.o.").toList) r with
    | some r1 => r1
    | none => r

/-- Embeds `(?:mean|average)\s+age(?:\s+at\s+baseline)?\s*(?:of|was|=|:)?\s*`
capture `\s*(?:years?|y\.o\.)?`, parameterized by the leading keyword
("mean" is also used for "median" with the `median` keyword). Returns
the captured number and the remainder after the whole match. -/
def matchMeanLikeAt (kw : List Char) (s : List Char) : Option (List Char × List Char) :=
  match ciStarts kw s with
  | none => none
  | some r1 =>
    match wsPlus r1 with
    | none => none
    | some r2 =>
      match ciStarts (("age").toList) r2 with
      | none => none
      | some r3 =>
        let r4 := atBaselineOpt r3
        let r5 := wsStar r4
        let r6 := connectorOpt r5
        let r7 := wsStar r6
        match matchNum r7 with
        | none => none
        | some (num, r8) => some (num, unitOptTail r8)

/-- Embeds `(?:mean|average)` — the two keywords cannot both match at one
position, so trying "mean" then "average" is exact. -/
def matchMeanAt (s : List Char) : Option (List Char × List Char) :=
  match matchMeanLikeAt (("mean").toList) s with
  | some r => some r
  | none => matchMeanLikeAt (("average").toList) s

def matchMedianAt (s : List Char) : Option (List Char × List Char) :=
  matchMeanLikeAt (("median").toList) s

/-- Embeds `aged\s+(\d{1,2})\s*-\s*(\d{1,2})`. -/
def matchAgedAt (s : List Char) : Option ((List Char × List Char × List Char)) :=
  match ciStarts (("aged").toList) s with
  | none => none
  | some r1 =>
    match wsPlus r1 with
    | none => none
    | some r2 =>
      match twoThenOne r2 (fun r3 =>
        match wsStar r3 with
        | '-' :: r4 => twoThenOne (wsStar r4) (fun r5 => some r5)
        | _ => none) with
      | some (g1, (g2, rest)) => some (g1, g2, rest)
      | none => none

/-- Embeds `(?:to|and|-)` — pairwise distinct first characters. -/
def sepTok (s : List Char) : Option (List Char) :=
  match ciStarts (("to").toList) s with
  | some r => some r
  | none =>
    match ciStarts (("and").toList) s with
    | some r => some r
    | none =>
      match s with
      | '-' :: r => some r
      | _ => none

/-- Embeds `(?:years|y\.o\.)` (required unit of the prose-range pattern). -/
def proseUnit (s : List Char) : Option (List Char) :=
  match ciStarts (("years").toList) s with
  | some r => some r
  | none => ciStarts (("y.o.").toList) s

/-- Embeds `(?:between\s+)?(\d{1,2})\s*(?:to|and|-)\s*(\d{1,2})\s*(?:years|y\.o\.)`
— if `between\s+` matches but the rest fails, the skip branch (which
must see a digit where "between" stood) fails as well, so the greedy
option is exact. -/
def matchProseAt (s : List Char) : Option ((List Char × List Char × List Char)) :=
  let s1 :=
    match ciStarts (("between").toList) s with
    | none => s
    | some r1 =>
      match wsPlus r1 with
      | none => s
      | some r2 => r2
  match twoThenOne s1 (fun r1 =>
    match sepTok (wsStar r1) with
    | none => none
    | some r3 =>
      twoThenOne (wsStar r3) (fun r4 => proseUnit (wsStar r4))) with
  | some (n1, (n2, rest)) => some (n1, n2, rest)
  | none => none

/-- Embeds `(?:years?\s*old|y\.o\.)` — when "year[s]" matches but "old" does
not follow, Python falls back to the "y.o." alternative at the same
position; keeping the optional "s" greedy is exact because dropping it
leaves `\s*old` facing the letter "s". -/
def singleUnit (s : List Char) : Option (List Char) :=
  match ciStarts (("year").toList) s with
  | some r1 =>
    let r2 :=
      match r1 with
      | c :: rr => if lc c = 's' then rr else r1
      | [] => r1
    (match ciStarts (("old").toList) (wsStar r2) with
     | some r3 => some r3
     | none => ciStarts (("y.o.").toList) s)
  | none => ciStarts (("y.o.").toList) s

/-- Embeds `(\d{1,2})\s*(?:years?\s*old|y\.o\.)`. -/
def matchSingleAt (s : List Char) : Option (List Char × List Char) :=
  twoThenOne s (fun r => singleUnit (wsStar r))

/-- Embeds `grade\s+(\d{1,2})(?:\s*-\s*(\d{1,2}))?` — the trailing group is
optional, so the first capture never backtracks. -/
def matchGradeAt (s : List Char) : Option ((List Char × Option (List Char)) × List Char) :=
  match ciStarts (("grade").toList) s with
  | none => none
  | some r1 =>
    match wsPlus r1 with
    | none => none
    | some r2 =>
      match twoThenOne r2 (fun r3 => some r3) with
      | none => none
      | some (g1, r3) =>
        match (match wsStar r3 with
               | '-' :: r4 => twoThenOne (wsStar r4) (fun r5 => some r5)
               | _ => none) with
        | some (g2, r5) => some ((g1, some g2), r5)
        | none => some ((g1, none), r3)

/-- Embeds `re.finditer`: scan left to right, non-overlapping, resuming at each
match end (our matchers never produce empty matches; the zero-length
guard only keeps the recursion well-founded). Yields
(start index, end index, payload). Fuel is the remaining text length,
which every step strictly decreases. -/
def finditerAux (m : List Char → Option (α × List Char)) :
    Nat → Nat → List Char → List (Nat × Nat × α)
  | 0, _, _ => []
  | _ + 1, _, [] => []
  | fuel + 1, i, c :: rest =>
    match m (c :: rest) with
    | some (a, r) =>
      let len := (c :: rest).length - r.length
      if len = 0 then (i, i, a) :: finditerAux m fuel (i + 1) rest
      else (i, i + len, a) :: finditerAux m fuel (i + len) ((c :: rest).drop len)
    | none => finditerAux m fuel (i + 1) rest

def finditer (m : List Char → Option (α × List Char)) (t : List Char) :
    List (Nat × Nat × α) :=
  finditerAux m (t.length + 1) 0 t

/-- The context window: `clean(t[max(0,i0-80) : min(len(t),i1+80)])`. -/
def ctxWindow (t : List Char) (i0 i1 : Nat) : List Char :=
  clean ((t.drop (i0 - 80)).take (min t.length (i1 + 80) - (i0 - 80)))

/-- The int-valued captures of the range/grade patterns. -/
def digitsToInt (ds : List Char) : ℤ := (digitsToNat ds : ℤ)

def meanCandidates (t : List Char) : List AgeEvidence :=
  (finditer matchMeanAt t).map (fun x =>
    { kind := Kind.mean, value := some (parseNum x.2.2), low := none, high := none
      context := ctxWindow t x.1 x.2.1 })

def medianCandidates (t : List Char) : List AgeEvidence :=
  (finditer (fun s => matchMedianAt s) t).map (fun x =>
    { kind := Kind.median, value := some (parseNum x.2.2), low := none, high := none
      context := ctxWindow t x.1 x.2.1 })

def agedCandidates (t : List Char) : List AgeEvidence :=
  (finditer (fun s => (matchAgedAt s).map (fun y => ((y.1, y.2.1), y.2.2))) t).map
    (fun x =>
      { kind := Kind.range, value := none
        low := some ((digitsToNat x.2.2.1 : ℚ)), high := some ((digitsToNat x.2.2.2 : ℚ))
        context := ctxWindow t x.1 x.2.1 })

def proseCandidates (t : List Char) : List AgeEvidence :=
  (finditer (fun s => (matchProseAt s).map (fun y => ((y.1, y.2.1), y.2.2))) t).map
    (fun x =>
      { kind := Kind.range, value := none
        low := some ((digitsToNat x.2.2.1 : ℚ)), high := some ((digitsToNat x.2.2.2 : ℚ))
        context := ctxWindow t x.1 x.2.1 })

def singleCandidates (t : List Char) : List AgeEvidence :=
  (finditer matchSingleAt t).map (fun x =>
    { kind := Kind.single, value := some (parseNum x.2.2), low := none, high := none
      context := ctxWindow t x.1 x.2.1 })

def gradeCandidates (t : List Char) : List AgeEvidence :=
  (finditer (fun s => matchGradeAt s) t).map (fun x =>
    let g1 := digitsToInt x.2.2.1
    let g2 := match x.2.2.2 with
      | some ds => digitsToInt ds
      | none => g1
    let b1 := grade_to_age_bounds g1
    let b2 := grade_to_age_bounds g2
    { kind := Kind.grade, value := none
      low := some ((min b1.1 b2.1 : ℤ) : ℚ), high := some ((max b1.2 b2.2 : ℤ) : ℚ)
      context := ctxWindow t x.1 x.2.1 })

/-- The dedup key `(kind, value, low, high, context[:120])`. -/
def evKey (e : AgeEvidence) : Kind × Option ℚ × Option ℚ × Option ℚ × List Char :=
  (e.kind, e.value, e.low, e.high, e.context.take 120)

/-- The `seen`-set fold shared by all pattern families. -/
def dedup (seen : List (Kind × Option ℚ × Option ℚ × Option ℚ × List Char)) :
    List AgeEvidence → List AgeEvidence
  | [] => []
  | e :: rest =>
    if seen.any (fun k => decide (k = evKey e)) then dedup seen rest
    else e :: dedup (evKey e :: seen) rest

/-- Embeds `extract_age_evidence`: empty text short-circuits; en- and em-dashes
are normalized to "-"; the six pattern families run in source order over
the full text sharing one `seen` set. -/
def extract_age_evidence (text : List Char) : List AgeEvidence :=
  if text = [] then []
  else
    let t := text.map (fun c => if c = '–' ∨ c = '—' then '-' else c)
    dedup []
      (meanCandidates t ++ medianCandidates t ++ agedCandidates t ++
        proseCandidates t ++ singleCandidates t ++ gradeCandidates t)

/-! ### find_age.py: decision engine -/

def AGE_MIN : ℚ := 2
def AGE_MAX : ℚ := 17

/-- Embeds `_in_window`. -/
def in_window (v : ℚ) : Bool :=
  decide (AGE_MIN ≤ v) && decide (v ≤ AGE_MAX)

/-- Embeds `_overlaps_window`. -/
def overlaps_window (lo hi : ℚ) : Bool :=
  !(decide (hi < AGE_MIN) || decide (lo > AGE_MAX))

/-- Embeds `AgeDecision` from find_age.py (`evidence` keeps the items whose
dicts the code would store). -/
structure AgeDecision where
  covidence_num : String
  decision : String
  reasons : List String
  evidence : List AgeEvidence
  source_url : String

def baselineB (e : AgeEvidence) : Bool :=
  listContainsSub (("baseline").toList) (lcL e.context)

def meanInB (e : AgeEvidence) : Bool :=
  decide (e.kind = Kind.mean) &&
    (match e.value with
     | some v => in_window v
     | none => false)

def meanOutB (e : AgeEvidence) : Bool :=
  decide (e.kind = Kind.mean) &&
    (match e.value with
     | some v => !in_window v
     | none => false)

def otherInB (e : AgeEvidence) : Bool :=
  ((decide (e.kind = Kind.range) || decide (e.kind = Kind.grade)) &&
    (match e.low, e.high with
     | some lo, some hi => overlaps_window lo hi
     | _, _ => false)) ||
  ((decide (e.kind = Kind.single) || decide (e.kind = Kind.median)) &&
    (match e.value with
     | some v => in_window v
     | none => false))

def otherOutB (e : AgeEvidence) : Bool :=
  ((decide (e.kind = Kind.range) || decide (e.kind = Kind.grade)) &&
    (match e.low, e.high with
     | some lo, some hi => !overlaps_window lo hi
     | _, _ => false)) ||
  ((decide (e.kind = Kind.single) || decide (e.kind = Kind.median)) &&
    (match e.value with
     | some v => !in_window v
     | none => false))

/-- Embeds `decide_age` from find_age.py, lines 174-247. -/
def decide_age (evid : List AgeEvidence) (cov : String) (srcUrl : String) : AgeDecision :=
  if evid.isEmpty then
    { covidence_num := cov, decision := "UnknownAge"
      reasons := ["No age evidence found; consider checking supplements."]
      evidence := [], source_url := srcUrl }
  else
    let baseline_flag := evid.any baselineB
    let mean_in := evid.any meanInB
    let mean_out := evid.any meanOutB
    let other_in := evid.any otherInB
    let other_out := evid.any otherOutB
    if baseline_flag && !mean_in then
      { covidence_num := cov, decision := "Maybe"
        reasons := ["Age described at baseline only; no in-range mean reported."]
        evidence := evid, source_url := srcUrl }
    else if mean_in then
      if mean_out || other_out then
        { covidence_num := cov, decision := "Maybe"
          reasons := ["In-range mean detected, but mixed cohorts also out-of-range."]
          evidence := evid, source_url := srcUrl }
      else
        { covidence_num := cov, decision := "Yes"
          reasons := ["In-range mean age detected (2–17)."]
          evidence := evid, source_url := srcUrl }
    else if other_in then
      { covidence_num := cov, decision := "Maybe"
        reasons := ["Age appears in range, but no mean reported."]
        evidence := evid, source_url := srcUrl }
    else if other_out then
      { covidence_num := cov, decision := "No"
        reasons := ["All detected age evidence outside 2–17 (<2 or ≥18)."]
        evidence := evid, source_url := srcUrl }
    else
      { covidence_num := cov, decision := "UnknownAge"
        reasons := ["Age not determinable; consider checking supplements."]
        evidence := evid, source_url := srcUrl }

/-! ### Claim-side specification predicates

These follow the wording of the specification, to be compared with the
embedded code above. -/

/-- Spec wording: "some item's context contains the word 'baseline' (case-insensitive)". -/
def BaselineP (evid : List AgeEvidence) : Prop :=
  ∃ e ∈ evid, ∃ pre post, lcL e.context = pre ++ ("baseline").toList ++ post

/-- Spec wording: "some mean-kind item has an in-window value". -/
def MeanInP (evid : List AgeEvidence) : Prop :=
  ∃ e ∈ evid, e.kind = Kind.mean ∧ ∃ v, e.value = some v ∧ 2 ≤ v ∧ v ≤ 17

/-- Spec wording: "some mean-kind value is out-of-window". -/
def MeanOutP (evid : List AgeEvidence) : Prop :=
  ∃ e ∈ evid, e.kind = Kind.mean ∧ ∃ v, e.value = some v ∧ ¬(2 ≤ v ∧ v ≤ 17)

/-- Spec wording: "some range/grade item overlaps the window or some single/median
value is in-window". -/
def OtherInP (evid : List AgeEvidence) : Prop :=
  ∃ e ∈ evid,
    ((e.kind = Kind.range ∨ e.kind = Kind.grade) ∧
      ∃ lo hi, e.low = some lo ∧ e.high = some hi ∧ ¬(hi < 2 ∨ lo > 17)) ∨
    ((e.kind = Kind.single ∨ e.kind = Kind.median) ∧
      ∃ v, e.value = some v ∧ 2 ≤ v ∧ v ≤ 17)

/-- Spec wording: "some range/grade item does not overlap the window or some
single/median value is out-of-window". -/
def OtherOutP (evid : List AgeEvidence) : Prop :=
  ∃ e ∈ evid,
    ((e.kind = Kind.range ∨ e.kind = Kind.grade) ∧
      ∃ lo hi, e.low = some lo ∧ e.high = some hi ∧ (hi < 2 ∨ lo > 17)) ∨
    ((e.kind = Kind.single ∨ e.kind = Kind.median) ∧
      ∃ v, e.value = some v ∧ ¬(2 ≤ v ∧ v ≤ 17))

/-- The canonical identifier grammar of the specification: registrant
prefix "10.", a 4-9 digit code, a slash, then a nonempty run of
non-whitespace, non-angle-bracket, non-quote characters. -/
def isCanonicalDoi (d : List Char) : Prop :=
  ∃ code suf, d = '1' :: '0' :: '.' :: (code ++ '/' :: suf) ∧
    code.all Char.isDigit = true ∧ 4 ≤ code.length ∧ code.length ≤ 9 ∧
    suf ≠ [] ∧ suf.all isDoiSuffixChar = true

/-- A failed Crossref call in the sense of the spec's error taxonomy:
transport exception, non-success status, or unparseable body. -/
def crossrefFailed : CrossrefHttp → Bool
  | CrossrefHttp.exn => true
  | CrossrefHttp.resp status parsed => !(status = 200) || parsed.isNone

/-- A failed SerpAPI call, same taxonomy. -/
def serpFailed : SerpHttp → Bool
  | SerpHttp.exn => true
  | SerpHttp.resp status parsed => !(status = 200) || parsed.isNone

/-! ### Concrete inputs used by counterexamples and witnesses -/

def agePhrase : List Char := ("mean age of 8.5 years").toList

/-- The phrase twice with 130 characters of distinct filler between:
the two matches' 120-character context keys differ. -/
def c2FarText : List Char :=
  agePhrase ++ ' ' :: (List.replicate 130 'z' ++ ' ' :: agePhrase)

/-- The phrase twice separated by one space: both matches share the
whole (short) text as context, so their dedup keys coincide. -/
def c2NearText : List Char := agePhrase ++ ' ' :: agePhrase

def c10Text : List Char := ("The mean age of 100 years was reported.").toList

/-- The evidence item mined from the text "aged 3-5". -/
def agedSampleEv : AgeEvidence :=
  { kind := Kind.range, value := none, low := some 3, high := some 5
    context := ("aged 3-5").toList }

/-- Input row for the web-search fallback scenario: no identifier, no
URL, a title whose short form differs. -/
def c3Row : RowIn :=
  { covidence := ("1").toList, title := ("A: B").toList, authors := []
    doi := [], url := [] }

/-- Environment for that scenario: both Crossref strategies answer 200
with an empty item list, the Scholar fallback answers 200 with one
result whose link embeds no identifier pattern. -/
def c3Env : LinkEnv :=
  { h1 := CrossrefHttp.resp 200 (some [])
    h2 := CrossrefHttp.resp 200 (some [])
    serp := SerpHttp.resp 200 (some [{ link := some (("https://example.org/page").toList) }])
    serpKey := true }

/-- Row whose existing identifier normalizes successfully. -/
def c6Row : RowIn :=
  { covidence := ("7").toList, title := ("T").toList, authors := ("A").toList
    doi := ("10.1234/xyz").toList, url := [] }

/-- Environment that would fail everywhere — irrelevant, as the chain
must not consult it. -/
def c6Env : LinkEnv :=
  { h1 := CrossrefHttp.exn, h2 := CrossrefHttp.exn, serp := SerpHttp.exn, serpKey := false }

/-! ### Theorems -/

set_option maxRecDepth 10000

/-- Correctness of `List.isPrefixOf`: it agrees with "is an initial segment". -/
theorem isPrefixOf_eq_true_iff (n : List Char) :
    ∀ h : List Char, n.isPrefixOf h = true ↔ ∃ q, h = n ++ q := by
  induction n with
  | nil => intro h; simp [List.isPrefixOf]
  | cons a as ih =>
    intro h
    cases h with
    | nil => simp [List.isPrefixOf]
    | cons b bs =>
      simp only [List.isPrefixOf, Bool.and_eq_true, beq_iff_eq, ih bs]
      constructor
      · rintro ⟨rfl, q, rfl⟩; exact ⟨q, rfl⟩
      · rintro ⟨q, hq⟩
        injection hq with h1 h2
        exact ⟨h1.symm, q, h2⟩

/-- Python `in` agrees with "occurs as a contiguous substring". -/
theorem listContainsSub_iff (n : List Char) :
    ∀ h : List Char, listContainsSub n h = true ↔ ∃ p q, h = p ++ n ++ q := by
  intro h
  induction h with
  | nil =>
    simp only [listContainsSub, List.isEmpty_iff]
    constructor
    · rintro rfl; exact ⟨[], [], rfl⟩
    · rintro ⟨p, q, hq⟩
      rcases List.append_eq_nil.mp hq.symm with ⟨h1, h2⟩
      exact (List.append_eq_nil.mp h1).2
  | cons c t ih =>
    simp only [listContainsSub, Bool.or_eq_true, isPrefixOf_eq_true_iff, ih]
    constructor
    · rintro (⟨q, hq⟩ | ⟨p, q, hq⟩)
      · exact ⟨[], q, by simpa using hq⟩
      · exact ⟨c :: p, q, by simp [hq]⟩
    · rintro ⟨p, q, hq⟩
      cases p with
      | nil => exact Or.inl ⟨q, by simpa using hq⟩
      | cons x p' =>
        injection hq with h1 h2
        exact Or.inr ⟨p', q, h2⟩

/-- C5: `in_window` is exactly the inclusive window 2 ≤ v ≤ 17, and for
low ≤ high the band fails `overlaps_window` exactly when it lies
entirely below 2 or entirely above 17; all eight boundary cases behave
as claimed. -/
theorem window_semantics :
    (∀ v : ℚ, in_window v = true ↔ 2 ≤ v ∧ v ≤ 17) ∧
    (∀ lo hi : ℚ, lo ≤ hi → (overlaps_window lo hi = false ↔ hi < 2 ∨ lo > 17)) ∧
    in_window 2 = true ∧ in_window 17 = true ∧
    in_window 1 = false ∧ in_window 18 = false ∧
    overlaps_window 0 1 = false ∧ overlaps_window 0 2 = true ∧
    overlaps_window 17 25 = true ∧ overlaps_window 18 25 = false := by
  refine ⟨fun v => ?_, fun lo hi _ => ?_, ?_, ?_, ?_, ?_, ?_, ?_, ?_, ?_⟩
  · simp [in_window, AGE_MIN, AGE_MAX]
  · simp [overlaps_window, AGE_MIN, AGE_MAX, or_iff_not_imp_left, not_lt]
  all_goals norm_num [in_window, overlaps_window, AGE_MIN, AGE_MAX]

/-- Witness for C5 at the boundary pair (0, 1) and the value 2. -/
theorem window_semantics_witness :
    overlaps_window 0 1 = false ∧ in_window 2 = true :=
  ⟨(window_semantics.2.1 0 1 (by norm_num)).mpr (by norm_num),
   (window_semantics.1 2).mpr (by norm_num)⟩

/-- Every element surviving the shared deduplication fold came from the
raw candidate list. -/
theorem dedup_mem_subset :
    ∀ (seen : List (Kind × Option ℚ × Option ℚ × Option ℚ × List Char))
      (l : List AgeEvidence) (e : AgeEvidence), e ∈ dedup seen l → e ∈ l := by
  intro seen l
  induction l generalizing seen with
  | nil => intro e he; simp [dedup] at he
  | cons x r ih =>
    intro e he
    unfold dedup at he
    split at he
    · exact List.mem_cons_of_mem x (ih _ e he)
    · rcases List.mem_cons.mp he with h | h
      · exact h ▸ List.mem_cons_self x r
      · exact List.mem_cons_of_mem x (ih _ e h)

theorem meanCandidates_shape (t : List Char) (e : AgeEvidence) (h : e ∈ meanCandidates t) :
    e.kind = Kind.mean ∧ e.value ≠ none ∧ e.low = none ∧ e.high = none := by
  obtain ⟨x, _, rfl⟩ := List.mem_map.mp h; simp [meanCandidates]

theorem medianCandidates_shape (t : List Char) (e : AgeEvidence) (h : e ∈ medianCandidates t) :
    e.kind = Kind.median ∧ e.value ≠ none ∧ e.low = none ∧ e.high = none := by
  obtain ⟨x, _, rfl⟩ := List.mem_map.mp h; simp [medianCandidates]

theorem agedCandidates_shape (t : List Char) (e : AgeEvidence) (h : e ∈ agedCandidates t) :
    e.kind = Kind.range ∧ e.value = none ∧ e.low ≠ none ∧ e.high ≠ none := by
  obtain ⟨x, _, rfl⟩ := List.mem_map.mp h; simp [agedCandidates]

theorem proseCandidates_shape (t : List Char) (e : AgeEvidence) (h : e ∈ proseCandidates t) :
    e.kind = Kind.range ∧ e.value = none ∧ e.low ≠ none ∧ e.high ≠ none := by
  obtain ⟨x, _, rfl⟩ := List.mem_map.mp h; simp [proseCandidates]

theorem singleCandidates_shape (t : List Char) (e : AgeEvidence) (h : e ∈ singleCandidates t) :
    e.kind = Kind.single ∧ e.value ≠ none ∧ e.low = none ∧ e.high = none := by
  obtain ⟨x, _, rfl⟩ := List.mem_map.mp h; simp [singleCandidates]

theorem gradeCandidates_shape (t : List Char) (e : AgeEvidence) (h : e ∈ gradeCandidates t) :
    e.kind = Kind.grade ∧ e.value = none ∧ e.low ≠ none ∧ e.high ≠ none := by
  simp only [gradeCandidates, List.mem_map] at h
  obtain ⟨x, hmem, hxe⟩ := h
  subst hxe
  simp

/-- C8: every evidence item produced by `extract_age_evidence` has its
`value` populated with `low`/`high` absent exactly when its kind is
mean, median or single, and `low`/`high` populated with `value` absent
exactly when its kind is range or grade — never both sides, never
neither. -/
theorem extract_age_evidence_invariant (text : List Char) (e : AgeEvidence)
    (he : e ∈ extract_age_evidence text) :
    ((e.value ≠ none ∧ e.low = none ∧ e.high = none) ↔
      (e.kind = Kind.mean ∨ e.kind = Kind.median ∨ e.kind = Kind.single)) ∧
    ((e.low ≠ none ∧ e.high ≠ none ∧ e.value = none) ↔
      (e.kind = Kind.range ∨ e.kind = Kind.grade)) := by
  unfold extract_age_evidence at he
  split at he
  · simp at he
  · have hm := dedup_mem_subset _ _ _ he
    simp only [List.mem_append, or_assoc] at hm
    rcases hm with h | h | h | h | h | h
    · obtain ⟨hk, hv, hl, hh⟩ := meanCandidates_shape _ _ h
      simp [hk, hv, hl, hh]
    · obtain ⟨hk, hv, hl, hh⟩ := medianCandidates_shape _ _ h
      simp [hk, hv, hl, hh]
    · obtain ⟨hk, hv, hl, hh⟩ := agedCandidates_shape _ _ h
      simp [hk, hv, hl, hh]
    · obtain ⟨hk, hv, hl, hh⟩ := proseCandidates_shape _ _ h
      simp [hk, hv, hl, hh]
    · obtain ⟨hk, hv, hl, hh⟩ := singleCandidates_shape _ _ h
      simp [hk, hv, hl, hh]
    · obtain ⟨hk, hv, hl, hh⟩ := gradeCandidates_shape _ _ h
      simp [hk, hv, hl, hh]

/-- Witness for C8 at the item mined from the text "aged 3-5". -/
theorem extract_age_evidence_invariant_witness :
    ((agedSampleEv.value ≠ none ∧ agedSampleEv.low = none ∧ agedSampleEv.high = none) ↔
      (agedSampleEv.kind = Kind.mean ∨ agedSampleEv.kind = Kind.median ∨
        agedSampleEv.kind = Kind.single)) ∧
    ((agedSampleEv.low ≠ none ∧ agedSampleEv.high ≠ none ∧ agedSampleEv.value = none) ↔
      (agedSampleEv.kind = Kind.range ∨ agedSampleEv.kind = Kind.grade)) :=
  extract_age_evidence_invariant (("aged 3-5").toList) agedSampleEv
    (by rw [show extract_age_evidence (("aged 3-5").toList) = [agedSampleEv] from by decide]
        exact List.mem_singleton.mpr rfl)

/-- C2 counterexample: a text containing "mean age of 8.5 years" exactly
twice, 130 characters of filler apart, yields TWO mean items with value
8.5 (their 120-character context keys differ), refuting "exactly one". -/
theorem c2_distinct_contexts_counterexample :
    countOcc agePhrase c2FarText = 2 ∧
    (extract_age_evidence c2FarText).map (fun e => (e.kind, e.value)) =
      [(Kind.mean, some (mkRat 17 2)), (Kind.mean, some (mkRat 17 2))] := by decide

/-- C2 amended: each occurrence of the phrase yields a mean item with
value 8.5, and the occurrences collapse to exactly one item only when
their (kind, value, 120-character truncated context) dedup keys
coincide — as for the text that is the phrase, one space, the phrase. -/
theorem c2_dedup_amended :
    countOcc agePhrase c2NearText = 2 ∧
    (extract_age_evidence c2NearText).map (fun e => (e.kind, e.value)) =
      [(Kind.mean, some (mkRat 17 2))] := by decide

/-- C10: on "The mean age of 100 years was reported." the 1-2 digit
capture (which has no trailing word boundary) reads only "10" out of
"100", so the miner emits a mean item with value 10 and the decision
engine then answers a hard Yes for a cohort of mean age 100. -/
theorem c10_three_digit_mean_truncation :
    (extract_age_evidence c10Text).map (fun e => (e.kind, e.value, e.low, e.high)) =
      [(Kind.mean, some (10 : ℚ), none, none)] ∧
    (decide_age (extract_age_evidence c10Text) ("293") ("u")).decision = "Yes" := by decide

/-- C4 counterexample: find_links.py with an input CSV having NO columns
at all — in particular no identifier and no URL column — does not abort;
its column stage succeeds, defaulting every required column. -/
theorem c4_find_links_never_aborts :
    find_links_load [] =
      Except.ok [("Covidence #").toList, ("title").toList, ("authors").toList,
        ("doi").toList, ("url").toList] := by rfl

/-- C4 amended: in find_age.py a missing URL column (or a missing
"Covidence #" column) makes the schema check abort with an error before
any row is processed, while find_links.py never aborts on missing
columns — its column stage always succeeds by defaulting them. -/
theorem schema_failure_behavior :
    (∀ (cols : List (List Char)) (urlCol : List Char),
        (∀ c ∈ cols, lcL (pyStrip c) ≠ lcL urlCol) →
        find_age_load_cols cols urlCol = Except.error ("URL column not found")) ∧
    (∀ (cols : List (List Char)) (urlCol : List Char),
        (∀ c ∈ cols, lcL (pyStrip c) ≠ ("covidence #").toList) →
        ∀ res, find_age_load_cols cols urlCol ≠ Except.ok res) ∧
    (∀ cols : List (List Char), find_links_load cols = Except.ok (find_links_prepare cols)) := by
  refine ⟨?_, ?_, fun _ => rfl⟩
  · intro cols urlCol hnone
    have hl : colmap_lookup cols (lcL urlCol) = none := by
      apply List.find?_eq_none.mpr
      intro c hc
      simp only [List.mem_reverse] at hc
      simp [hnone c hc]
    simp [find_age_load_cols, hl, truthyStr]
  · intro cols urlCol hnone res
    have hl : colmap_lookup cols (("covidence #").toList) = none := by
      apply List.find?_eq_none.mpr
      intro c hc
      simp only [List.mem_reverse] at hc
      simp only [decide_eq_true_eq]
      exact hnone c hc
    unfold find_age_load_cols
    cases h1 : truthyStr (colmap_lookup cols (lcL urlCol)) with
    | none => simp
    | some u =>
      rw [hl]
      simp [truthyStr]

/-- Witness for C4's amended claim: a CSV with a single unrelated
column aborts find_age.py, while find_links.py sails through. -/
theorem schema_failure_behavior_witness :
    find_age_load_cols [("x").toList] (("found_url").toList) =
      Except.error ("URL column not found") ∧
    find_links_load [("title").toList] = Except.ok (find_links_prepare [("title").toList]) :=
  ⟨schema_failure_behavior.1 [("x").toList] (("found_url").toList) (by decide),
   schema_failure_behavior.2.2 [("title").toList]⟩

/-- A successful trial of the identifier pattern always starts with "1". -/
theorem doiTryLen_head {rest : List Char} {n : ℕ} {m : List Char}
    (h : doiTryLen rest n = some m) : ∃ tail, m = '1' :: tail := by
  simp only [doiTryLen] at h
  split at h
  · split at h
    · cases h
    · exact ⟨_, (Option.some.inj h).symm⟩
  · cases h

theorem doiMatchAt_head {s m : List Char} (h : doiMatchAt s = some m) :
    ∃ tail, m = '1' :: tail := by
  unfold doiMatchAt at h
  split at h
  · obtain ⟨n, hn, hf⟩ := List.exists_of_findSome?_eq_some h
    exact doiTryLen_head hf
  · cases h

theorem doiSearch_head {s m : List Char} (h : doiSearch s = some m) :
    ∃ tail, m = '1' :: tail := by
  induction s with
  | nil => cases h
  | cons c rest ih =>
    unfold doiSearch at h
    split at h
    · cases h
      exact doiMatchAt_head (by assumption)
    · exact ih h

/-- A canonical identifier produced by `normalize_doi` is never empty. -/
theorem normalize_doi_ne_nil {s d : List Char} (h : normalize_doi s = some d) : d ≠ [] := by
  unfold normalize_doi at h
  split at h
  · cases h
  · obtain ⟨tail, rfl⟩ := doiSearch_head h
    simp

/-- C6: when the row's existing identifier normalizes successfully, the
chain issues no search-service call, emits that identifier with the
"csv" source tag (the tag the spec names `existing`), and the URL is
the row's literal (stripped) URL, or the canonical resolver link when
none was supplied. -/
theorem existing_doi_short_circuit (row : RowIn) (env : LinkEnv) (d : List Char)
    (h : normalize_doi row.doi = some d) :
    (processRow row env).2 = [] ∧
    (processRow row env).1.found_doi = d ∧
    (processRow row env).1.source = ("csv").toList ∧
    (processRow row env).1.found_url =
      (if pyStrip row.url = [] then (("https://doi.org/").toList) ++ d
       else pyStrip row.url) := by
  have hd : d ≠ [] := normalize_doi_ne_nil h
  by_cases hu : pyStrip row.url = [] <;>
    simp [processRow, h, pyTruthy, hd, hu, orEmpty, pyOrStr, doi_to_url, notFound]

/-- Witness for C6: a row carrying the identifier 10.1234/xyz and no URL. -/
theorem existing_doi_short_circuit_witness :
    (processRow c6Row c6Env).2 = [] ∧
    (processRow c6Row c6Env).1.found_doi = ("10.1234/xyz").toList ∧
    (processRow c6Row c6Env).1.source = ("csv").toList ∧
    (processRow c6Row c6Env).1.found_url =
      (if pyStrip c6Row.url = [] then (("https://doi.org/").toList) ++ ("10.1234/xyz").toList
       else pyStrip c6Row.url) :=
  existing_doi_short_circuit c6Row c6Env (("10.1234/xyz").toList) (by decide)

/-- C7: every failing search-service call — transport exception,
non-200 status, or unparseable body — is absorbed inside its tier: the
Crossref tier reports "no item", the two-strategy Crossref chain
reports the NOT_FOUND sentinel, and the Scholar tier reports
("NOT_FOUND", ""); all are total functions, so no exception reaches
the caller. -/
theorem search_failures_swallowed :
    (∀ h : CrossrefHttp, crossrefFailed h = true → crossref_top_item h = none) ∧
    (∀ (t : List Char) (a : Option (List Char)) (h1 h2 : CrossrefHttp),
        crossrefFailed h1 = true → crossrefFailed h2 = true →
        (robust_crossref_find_doi t a h1 h2).1 = (notFound, [])) ∧
    (∀ (t : List Char) (a : Option (List Char)) (s : SerpHttp),
        serpFailed s = true → (serpapi_scholar_link t a s).1 = (notFound, [])) := by
  have hcross : ∀ h : CrossrefHttp, crossrefFailed h = true → crossref_top_item h = none := by
    intro h hf
    cases h with
    | exn => rfl
    | resp st p =>
      simp only [crossrefFailed, Bool.or_eq_true, Bool.not_eq_true',
        decide_eq_false_iff_not, Option.isNone_iff_eq_none] at hf
      unfold crossref_top_item polite_get_crossref
      rcases hf with hst | hp
      · simp [hst]
      · subst hp
        by_cases hst : st = 200 <;> simp [hst]
  refine ⟨hcross, ?_, ?_⟩
  · intro t a h1 h2 hf1 hf2
    have e1 := hcross h1 hf1
    have e2 := hcross h2 hf2
    by_cases hshort : short_title (normalize_title t) ≠ [] ∧
        lcL (short_title (normalize_title t)) ≠ lcL (normalize_title t) <;>
      simp [robust_crossref_find_doi, e1, e2, hshort]
  · intro t a s hf
    cases s with
    | exn => rfl
    | resp st p =>
      simp only [serpFailed, Bool.or_eq_true, Bool.not_eq_true',
        decide_eq_false_iff_not, Option.isNone_iff_eq_none] at hf
      rcases hf with hst | hp
      · simp [serpapi_scholar_link, hst]
      · subst hp
        by_cases hst : st = 200 <;> simp [serpapi_scholar_link, hst]

/-- Witness for C7 at concrete failing outcomes (transport exceptions). -/
theorem search_failures_swallowed_witness :
    crossref_top_item CrossrefHttp.exn = none ∧
    (robust_crossref_find_doi [] none CrossrefHttp.exn CrossrefHttp.exn).1 = (notFound, []) ∧
    (serpapi_scholar_link [] none SerpHttp.exn).1 = (notFound, []) :=
  ⟨search_failures_swallowed.1 CrossrefHttp.exn rfl,
   search_failures_swallowed.2.1 [] none CrossrefHttp.exn CrossrefHttp.exn rfl rfl,
   search_failures_swallowed.2.2 [] none SerpHttp.exn rfl⟩

/-- C3 / code bug: with no existing identifier, both Crossref strategies
empty, a configured key and one Scholar result whose link embeds no
identifier, `serpapi_scholar_link` does return that first link next to
NOT_FOUND — but `main`'s guard `if s_doi != "NOT_FOUND"` discards it,
so the emitted record carries an EMPTY URL, not the first result's
link as the spec describes. -/
theorem c3_fallback_url_dropped :
    (processRow c3Row c3Env).1.found_doi = notFound ∧
    (processRow c3Row c3Env).1.found_url = [] ∧
    (processRow c3Row c3Env).1.source = ("crossref").toList ∧
    ((serpapi_scholar_link (("A: B").toList) none c3Env.serp).1).2 =
      ("https://example.org/page").toList := by decide

theorem baselineB_iff (e : AgeEvidence) :
    baselineB e = true ↔ ∃ pre post, lcL e.context = pre ++ ("baseline").toList ++ post := by
  simp [baselineB, listContainsSub_iff]

theorem in_window_eq_true_iff (v : ℚ) : in_window v = true ↔ 2 ≤ v ∧ v ≤ 17 := by
  simp [in_window, AGE_MIN, AGE_MAX]

theorem in_window_eq_false_iff (v : ℚ) : in_window v = false ↔ ¬(2 ≤ v ∧ v ≤ 17) := by
  simp only [Bool.eq_false_iff, ne_eq, in_window_eq_true_iff]

theorem overlaps_eq_true_iff (lo hi : ℚ) :
    overlaps_window lo hi = true ↔ ¬(hi < 2 ∨ lo > 17) := by
  simp [overlaps_window, AGE_MIN, AGE_MAX]

theorem overlaps_eq_false_iff (lo hi : ℚ) :
    overlaps_window lo hi = false ↔ (hi < 2 ∨ lo > 17) := by
  simp [overlaps_window, AGE_MIN, AGE_MAX, or_iff_not_imp_left, not_lt]

theorem meanInB_iff (e : AgeEvidence) :
    meanInB e = true ↔ e.kind = Kind.mean ∧ ∃ v, e.value = some v ∧ 2 ≤ v ∧ v ≤ 17 := by
  cases hv : e.value <;>
    simp [meanInB, hv, in_window_eq_true_iff]

theorem meanOutB_iff (e : AgeEvidence) :
    meanOutB e = true ↔ e.kind = Kind.mean ∧ ∃ v, e.value = some v ∧ ¬(2 ≤ v ∧ v ≤ 17) := by
  cases hv : e.value
  · simp [meanOutB, hv]
  · simp [meanOutB, hv, Bool.not_eq_true', in_window_eq_false_iff]

theorem otherInB_iff (e : AgeEvidence) :
    otherInB e = true ↔
      (((e.kind = Kind.range ∨ e.kind = Kind.grade) ∧
          ∃ lo hi, e.low = some lo ∧ e.high = some hi ∧ ¬(hi < 2 ∨ lo > 17)) ∨
        ((e.kind = Kind.single ∨ e.kind = Kind.median) ∧
          ∃ v, e.value = some v ∧ 2 ≤ v ∧ v ≤ 17)) := by
  cases hl : e.low <;> cases hh : e.high <;> cases hv : e.value <;>
    simp [otherInB, hl, hh, hv, overlaps_eq_true_iff, in_window_eq_true_iff]

theorem otherOutB_iff (e : AgeEvidence) :
    otherOutB e = true ↔
      (((e.kind = Kind.range ∨ e.kind = Kind.grade) ∧
          ∃ lo hi, e.low = some lo ∧ e.high = some hi ∧ (hi < 2 ∨ lo > 17)) ∨
        ((e.kind = Kind.single ∨ e.kind = Kind.median) ∧
          ∃ v, e.value = some v ∧ ¬(2 ≤ v ∧ v ≤ 17))) := by
  cases hl : e.low <;> cases hh : e.high <;> cases hv : e.value <;>
    simp [otherOutB, hl, hh, hv, Bool.not_eq_true', overlaps_eq_false_iff,
      in_window_eq_false_iff]

theorem any_baselineB_iff (evid : List AgeEvidence) :
    evid.any baselineB = true ↔ BaselineP evid := by
  simp only [List.any_eq_true, BaselineP, baselineB_iff]

theorem any_meanInB_iff (evid : List AgeEvidence) :
    evid.any meanInB = true ↔ MeanInP evid := by
  simp only [List.any_eq_true, MeanInP, meanInB_iff]

theorem any_meanOutB_iff (evid : List AgeEvidence) :
    evid.any meanOutB = true ↔ MeanOutP evid := by
  simp only [List.any_eq_true, MeanOutP, meanOutB_iff]

theorem any_otherInB_iff (evid : List AgeEvidence) :
    evid.any otherInB = true ↔ OtherInP evid := by
  simp only [List.any_eq_true, OtherInP, otherInB_iff]

theorem any_otherOutB_iff (evid : List AgeEvidence) :
    evid.any otherOutB = true ↔ OtherOutP evid := by
  simp only [List.any_eq_true, OtherOutP, otherOutB_iff]

/-- C1: `decide_age` realizes exactly the claimed first-match-wins rule
order — (1) empty evidence: UnknownAge; (2) some context mentions
"baseline" and no in-window mean: Maybe; (3) an in-window mean exists:
Maybe when an out-of-window mean or an out-of-window/non-overlapping
other signal also exists, else Yes; (4) otherwise an in-window other
signal: Maybe; (5) otherwise an out-of-window other signal: No;
(6) otherwise UnknownAge. The seven mutually exclusive cases cover
every evidence list. -/
theorem decide_age_rule_order (evid : List AgeEvidence) (cov srcUrl : String) :
    (evid = [] → (decide_age evid cov srcUrl).decision = "UnknownAge") ∧
    (evid ≠ [] → BaselineP evid → ¬ MeanInP evid →
      (decide_age evid cov srcUrl).decision = "Maybe") ∧
    (evid ≠ [] → ¬ (BaselineP evid ∧ ¬ MeanInP evid) → MeanInP evid →
      (MeanOutP evid ∨ OtherOutP evid) →
      (decide_age evid cov srcUrl).decision = "Maybe") ∧
    (evid ≠ [] → ¬ (BaselineP evid ∧ ¬ MeanInP evid) → MeanInP evid →
      ¬ (MeanOutP evid ∨ OtherOutP evid) →
      (decide_age evid cov srcUrl).decision = "Yes") ∧
    (evid ≠ [] → ¬ (BaselineP evid ∧ ¬ MeanInP evid) → ¬ MeanInP evid →
      OtherInP evid → (decide_age evid cov srcUrl).decision = "Maybe") ∧
    (evid ≠ [] → ¬ (BaselineP evid ∧ ¬ MeanInP evid) → ¬ MeanInP evid →
      ¬ OtherInP evid → OtherOutP evid →
      (decide_age evid cov srcUrl).decision = "No") ∧
    (evid ≠ [] → ¬ (BaselineP evid ∧ ¬ MeanInP evid) → ¬ MeanInP evid →
      ¬ OtherInP evid → ¬ OtherOutP evid →
      (decide_age evid cov srcUrl).decision = "UnknownAge") := by
  have hisE : evid ≠ [] → evid.isEmpty = false := by
    intro hne
    cases evid
    · exact absurd rfl hne
    · rfl
  refine ⟨?_, ?_, ?_, ?_, ?_, ?_, ?_⟩
  · rintro rfl; rfl
  · intro hne hb hmi
    have e0 := hisE hne
    have e1 : evid.any baselineB = true := (any_baselineB_iff evid).mpr hb
    have e2 : evid.any meanInB = false := by
      simp only [Bool.eq_false_iff, Ne, any_meanInB_iff]
      exact hmi
    simp [decide_age, e0, e1, e2]
  · intro hne _ hmi hout
    have e0 := hisE hne
    have e2 : evid.any meanInB = true := (any_meanInB_iff evid).mpr hmi
    rcases hout with h | h
    · have e3 : evid.any meanOutB = true := (any_meanOutB_iff evid).mpr h
      simp [decide_age, e0, e2, e3]
    · have e3 : evid.any otherOutB = true := (any_otherOutB_iff evid).mpr h
      simp [decide_age, e0, e2, e3]
  · intro hne _ hmi hnout
    have e0 := hisE hne
    have e2 : evid.any meanInB = true := (any_meanInB_iff evid).mpr hmi
    have e3 : evid.any meanOutB = false := by
      simp only [Bool.eq_false_iff, Ne, any_meanOutB_iff]
      exact fun hc => hnout (Or.inl hc)
    have e4 : evid.any otherOutB = false := by
      simp only [Bool.eq_false_iff, Ne, any_otherOutB_iff]
      exact fun hc => hnout (Or.inr hc)
    simp [decide_age, e0, e2, e3, e4]
  · intro hne hq hmi hoi
    have e0 := hisE hne
    have hb : ¬ BaselineP evid := fun hb => hq ⟨hb, hmi⟩
    have e1 : evid.any baselineB = false := by
      simp only [Bool.eq_false_iff, Ne, any_baselineB_iff]
      exact hb
    have e2 : evid.any meanInB = false := by
      simp only [Bool.eq_false_iff, Ne, any_meanInB_iff]
      exact hmi
    have e5 : evid.any otherInB = true := (any_otherInB_iff evid).mpr hoi
    simp [decide_age, e0, e1, e2, e5]
  · intro hne hq hmi hnoi hoo
    have e0 := hisE hne
    have hb : ¬ BaselineP evid := fun hb => hq ⟨hb, hmi⟩
    have e1 : evid.any baselineB = false := by
      simp only [Bool.eq_false_iff, Ne, any_baselineB_iff]
      exact hb
    have e2 : evid.any meanInB = false := by
      simp only [Bool.eq_false_iff, Ne, any_meanInB_iff]
      exact hmi
    have e5 : evid.any otherInB = false := by
      simp only [Bool.eq_false_iff, Ne, any_otherInB_iff]
      exact hnoi
    have e6 : evid.any otherOutB = true := (any_otherOutB_iff evid).mpr hoo
    simp [decide_age, e0, e1, e2, e5, e6]
  · intro hne hq hmi hnoi hnoo
    have e0 := hisE hne
    have hb : ¬ BaselineP evid := fun hb => hq ⟨hb, hmi⟩
    have e1 : evid.any baselineB = false := by
      simp only [Bool.eq_false_iff, Ne, any_baselineB_iff]
      exact hb
    have e2 : evid.any meanInB = false := by
      simp only [Bool.eq_false_iff, Ne, any_meanInB_iff]
      exact hmi
    have e5 : evid.any otherInB = false := by
      simp only [Bool.eq_false_iff, Ne, any_otherInB_iff]
      exact hnoi
    have e6 : evid.any otherOutB = false := by
      simp only [Bool.eq_false_iff, Ne, any_otherOutB_iff]
      exact hnoo
    simp [decide_age, e0, e1, e2, e5, e6]

/-- Witness for C1 at the empty evidence list. -/
theorem decide_age_rule_order_witness :
    (decide_age [] ("c") ("u")).decision = "UnknownAge" :=
  (decide_age_rule_order [] ("c") ("u")).1 rfl

theorem dropWhile_eq_self_of_all (p : Char → Bool) (l : List Char)
    (h : ∀ c ∈ l, p c = false) : l.dropWhile p = l := by
  cases l with
  | nil => rfl
  | cons c t => simp [List.dropWhile_cons, h c (List.mem_cons_self c t)]

theorem pyStrip_eq_self_of_no_ws (l : List Char)
    (h : ∀ c ∈ l, c.isWhitespace = false) : pyStrip l = l := by
  unfold pyStrip
  rw [dropWhile_eq_self_of_all _ _ h,
    dropWhile_eq_self_of_all _ _ (fun c hc => h c (List.mem_reverse.mp hc)),
    List.reverse_reverse]

theorem digit_not_ws {c : Char} (h : c.isDigit = true) : c.isWhitespace = false := by
  by_contra hc
  rw [Bool.not_eq_false] at hc
  simp only [Char.isWhitespace, Bool.or_eq_true, decide_eq_true_eq] at hc
  rcases hc with ((h1 | h1) | h1) | h1 <;> (subst h1; exact absurd h (by decide))

theorem suffix_char_not_ws {c : Char} (h : isDoiSuffixChar c = true) :
    c.isWhitespace = false := by
  simp only [isDoiSuffixChar, Bool.and_eq_true, Bool.not_eq_true'] at h
  exact h.1.1.1

theorem is_missing_cons_eq_false {c : Char} {rest : List Char}
    (hnws : ∀ x ∈ (c :: rest), x.isWhitespace = false)
    (hc : ¬ lc c = 'n') : is_missing (c :: rest) = false := by
  have hstrip := pyStrip_eq_self_of_no_ws _ hnws
  have h1 : ¬(lcL (c :: rest) = ['n', 'a', 'n']) := by
    intro heq
    simp only [lcL, List.map_cons] at heq
    injection heq with hh _
    exact hc hh
  have h2 : ¬(lcL (c :: rest) = ['n', 'o', 'n', 'e']) := by
    intro heq
    simp only [lcL, List.map_cons] at heq
    injection heq with hh _
    exact hc hh
  simp [is_missing, hstrip, h1, h2]

theorem ciStarts_append (p r : List Char) : ciStarts p (p ++ r) = some r := by
  induction p with
  | nil => rfl
  | cons a as ih => simp [ciStarts, ih]

theorem takeWhile_eq_self_of_all (p : Char → Bool) (l : List Char)
    (h : l.all p = true) : l.takeWhile p = l := by
  induction l with
  | nil => rfl
  | cons c t ih =>
    simp only [List.all_cons, Bool.and_eq_true] at h
    simp [List.takeWhile_cons, h.1, ih h.2]

/-- Trial at exactly the registrant-code length succeeds and returns the
whole canonical identifier. -/
theorem doiTryLen_eq_of_len (code suf : List Char)
    (hdig : code.all Char.isDigit = true) (hsne : suf ≠ [])
    (hsall : suf.all isDoiSuffixChar = true) :
    doiTryLen (code ++ '/' :: suf) code.length =
      some ('1' :: '0' :: '.' :: (code ++ '/' :: suf)) := by
  have ht : (code ++ '/' :: suf).take code.length = code := List.take_left _ _
  have hd : (code ++ '/' :: suf).drop code.length = '/' :: suf := List.drop_left _ _
  have hrun : suf.takeWhile isDoiSuffixChar = suf := takeWhile_eq_self_of_all _ _ hsall
  have hie : suf.isEmpty = false := by
    cases suf
    · exact absurd rfl hsne
    · rfl
  simp [doiTryLen, ht, hd, hdig, hrun, hie]

/-- Trials at any other length in range fail. -/
theorem doiTryLen_ne_of_len {code suf : List Char} {n : ℕ}
    (hdig : code.all Char.isDigit = true) (hn : n ≠ code.length) :
    doiTryLen (code ++ '/' :: suf) n = none := by
  rcases Nat.lt_or_ge n code.length with hlt | hge
  · have ht : (code ++ '/' :: suf).take n = code.take n :=
      List.take_append_of_le_length (Nat.le_of_lt hlt)
    have hd : (code ++ '/' :: suf).drop n = code.drop n ++ '/' :: suf :=
      List.drop_append_of_le_length (Nat.le_of_lt hlt)
    have hdne : code.drop n ≠ [] := by
      rw [Ne, List.drop_eq_nil_iff]
      exact Nat.not_le_of_lt hlt
    obtain ⟨c0, cs, hc⟩ := List.exists_cons_of_ne_nil hdne
    have hc0 : c0 ∈ code := List.drop_subset n code (hc ▸ List.mem_cons_self c0 cs)
    have hc0d : c0.isDigit = true := List.all_eq_true.mp hdig c0 hc0
    have hc0ne : ¬(c0 = '/') := by
      intro h
      subst h
      exact absurd hc0d (by decide)
    simp [doiTryLen, hd, hc, hc0ne]
  · have hgt : code.length < n := Nat.lt_of_le_of_ne hge (fun hcc => hn hcc.symm)
    have hk : ∃ k, n - code.length = k + 1 := ⟨n - code.length - 1, by omega⟩
    obtain ⟨k, hk⟩ := hk
    have ht : (code ++ '/' :: suf).take n = code ++ '/' :: suf.take k := by
      rw [List.take_append_eq_append_take,
        List.take_of_length_le (Nat.le_of_lt hgt), hk, List.take_succ_cons]
    have hslash : ('/').isDigit = false := by decide
    simp [doiTryLen, ht, List.all_append, hslash]

/-- With a 4-9 digit code, the anchored match returns the whole
canonical identifier: the trials longer than the code fail, the trial
at the code's length succeeds. -/
theorem doiMatchAt_canonical {code suf : List Char}
    (hdig : code.all Char.isDigit = true) (h4 : 4 ≤ code.length)
    (h9 : code.length ≤ 9) (hsne : suf ≠ [])
    (hsall : suf.all isDoiSuffixChar = true) :
    doiMatchAt ('1' :: '0' :: '.' :: (code ++ '/' :: suf)) =
      some ('1' :: '0' :: '.' :: (code ++ '/' :: suf)) := by
  have heqn := doiTryLen_eq_of_len code suf hdig hsne hsall
  have hf : ∀ n : ℕ, n ≠ code.length → doiTryLen (code ++ '/' :: suf) n = none :=
    fun n hn => doiTryLen_ne_of_len hdig hn
  show [9, 8, 7, 6, 5, 4].findSome? (doiTryLen (code ++ '/' :: suf)) = _
  have hcl : code.length = 4 ∨ code.length = 5 ∨ code.length = 6 ∨
      code.length = 7 ∨ code.length = 8 ∨ code.length = 9 := by omega
  rcases hcl with hcl | hcl | hcl | hcl | hcl | hcl <;>
    (rw [hcl] at heqn
     simp only [hcl] at hf
     simp [List.findSome?_cons, heqn, hf])

theorem doiSearch_canonical {code suf : List Char}
    (hdig : code.all Char.isDigit = true) (h4 : 4 ≤ code.length)
    (h9 : code.length ≤ 9) (hsne : suf ≠ [])
    (hsall : suf.all isDoiSuffixChar = true) :
    doiSearch ('1' :: '0' :: '.' :: (code ++ '/' :: suf)) =
      some ('1' :: '0' :: '.' :: (code ++ '/' :: suf)) := by
  have hstep : doiSearch ('1' :: '0' :: '.' :: (code ++ '/' :: suf)) =
      match doiMatchAt ('1' :: '0' :: '.' :: (code ++ '/' :: suf)) with
      | some m => some m
      | none => doiSearch ('0' :: '.' :: (code ++ '/' :: suf)) := rfl
  rw [hstep, doiMatchAt_canonical hdig h4 h9 hsne hsall]

/-- C9: for every string matching the canonical identifier grammar,
normalizing the resolver URL that wraps it and normalizing the bare
string give the same canonical identifier, and the bare string comes
back unchanged. -/
theorem normalize_doi_roundtrip (d : List Char) (h : isCanonicalDoi d) :
    normalize_doi ((("https://doi.org/").toList) ++ d) = some d ∧
    normalize_doi d = some d := by
  obtain ⟨code, suf, rfl, hdig, h4, h9, hsne, hsall⟩ := h
  have hnws : ∀ c ∈ ('1' :: '0' :: '.' :: (code ++ '/' :: suf)),
      c.isWhitespace = false := by
    intro c hc
    simp only [List.mem_cons, List.mem_append] at hc
    rcases hc with rfl | rfl | rfl | hc | rfl | hc
    · decide
    · decide
    · decide
    · exact digit_not_ws (List.all_eq_true.mp hdig c hc)
    · decide
    · exact suffix_char_not_ws (List.all_eq_true.mp hsall c hc)
  have hdoi := doiSearch_canonical hdig h4 h9 hsne hsall
  have hnf : ∀ s : List Char, is_missing s = false →
      normalize_doi s = doiSearch (stripDoiColonHead (stripDoiUrlHead (pyStrip s))) := by
    intro s hs
    unfold normalize_doi
    rw [hs]
    rfl
  constructor
  · have hnwsU : ∀ c ∈ (("https://doi.org/").toList) ++
        ('1' :: '0' :: '.' :: (code ++ '/' :: suf)), c.isWhitespace = false := by
      intro c hc
      rcases List.mem_append.mp hc with hc | hc
      · have hlit : ∀ x ∈ ("https://doi.org/").toList, x.isWhitespace = false := by decide
        exact hlit c hc
      · exact hnws c hc
    have hmiss : is_missing ((("https://doi.org/").toList) ++
        ('1' :: '0' :: '.' :: (code ++ '/' :: suf))) = false :=
      is_missing_cons_eq_false hnwsU (by decide)
    rw [hnf _ hmiss, pyStrip_eq_self_of_no_ws _ hnwsU]
    rw [show stripDoiUrlHead ((("https://doi.org/").toList) ++
          ('1' :: '0' :: '.' :: (code ++ '/' :: suf))) =
        '1' :: '0' :: '.' :: (code ++ '/' :: suf) from by
      unfold stripDoiUrlHead
      rw [ciStarts_append]]
    rw [show stripDoiColonHead ('1' :: '0' :: '.' :: (code ++ '/' :: suf)) =
        '1' :: '0' :: '.' :: (code ++ '/' :: suf) from rfl]
    exact hdoi
  · have hmiss : is_missing ('1' :: '0' :: '.' :: (code ++ '/' :: suf)) = false :=
      is_missing_cons_eq_false hnws (by decide)
    rw [hnf _ hmiss, pyStrip_eq_self_of_no_ws _ hnws]
    rw [show stripDoiUrlHead ('1' :: '0' :: '.' :: (code ++ '/' :: suf)) =
        '1' :: '0' :: '.' :: (code ++ '/' :: suf) from rfl]
    rw [show stripDoiColonHead ('1' :: '0' :: '.' :: (code ++ '/' :: suf)) =
        '1' :: '0' :: '.' :: (code ++ '/' :: suf) from rfl]
    exact hdoi

/-- Witness for C9 at the identifier 10.1234/abcd. -/
theorem normalize_doi_roundtrip_witness :
    normalize_doi ((("https://doi.org/").toList) ++ ("10.1234/abcd").toList) =
      some (("10.1234/abcd").toList) ∧
    normalize_doi (("10.1234/abcd").toList) = some (("10.1234/abcd").toList) :=
  normalize_doi_roundtrip (("10.1234/abcd").toList)
    ⟨("1234").toList, ("abcd").toList, by decide, by decide, by decide, by decide,
      by decide, by decide⟩
